import Mathlib

/-!
Verification of the document-store lifecycle manager and calculation tools of
the bioquimica-study-buddy repository.

The Python sources are shallowly embedded as follows:
* `core/tools.py` formula functions become total Lean functions over `ℚ`
  (Python float arithmetic modelled by exact rational arithmetic); a Python
  `raise ValueError(msg)` becomes `Except.error msg`.
* `core/rag_manager.py`'s `RAGManager` becomes a state record `RAGState`
  (fields `store`, `store_name`, `config_path`), the Gemini client becomes a
  record of functions `Client` returning `Except` (a raised remote exception is
  `Except.error`), and the persisted-config file system becomes a map from
  paths to optional file contents.  The successive results of
  `client.operations.get` during one upload's polling loop are modelled by the
  stream `Client.operations_get : Nat → Bool` (done-status observed at the
  n-th re-fetch).  `upload_file` additionally reports how many remote calls it
  issued (`starts`, `polls`), an observation of the call trace.
-/

namespace StudyBuddy

/-- A remote file search store handle (`store.name` is the opaque identifier
assigned by the service). -/
structure Store where
  name : String
deriving Repr, DecidableEq

/-- In-memory state of `RAGManager`: `self.store`, `self.store_name`,
`self.config_path`. -/
structure RAGState where
  store : Option Store
  store_name : Option String
  config_path : String
deriving Repr, DecidableEq

/-- Content found at a file path: the JSON record may be unparseable
(`malformed`) or parse to a record whose `"store_name"` key is present or
absent. -/
inductive FileContent where
  | malformed
  | valid (store_name : Option String)
deriving Repr, DecidableEq

/-- The file system as seen through `config_path`: `none` means the file does
not exist. -/
abbrev FileSystem := String → Option FileContent

/-- An exception raised by a remote Gemini call. -/
structure RemoteErr where
  msg : String
deriving Repr, DecidableEq

/-- A long-running upload operation handle (`operation.done`). -/
structure Operation where
  done : Bool
deriving Repr, DecidableEq

/-- The Gemini client surface used by `RAGManager`.  Each method that can
raise returns `Except RemoteErr`.  `operations_get n` is the done-status
returned by the n-th call (0-indexed) to `client.operations.get` within one
upload. -/
structure Client where
  file_search_stores_create : String → Except RemoteErr Store
  file_search_stores_get : String → Except RemoteErr Store
  upload_to_file_search_store : String → String → String → Except RemoteErr Operation
  operations_get : Nat → Bool
  files_list : String → Except RemoteErr (List String)

/-- `RAGManager.load_existing_store`: read the config file at
`st.config_path`; on a missing file, malformed JSON, missing/falsy
`"store_name"` (Python `if not store_name` is true for `None` and `""`), or a
failing `file_search_stores.get`, return `false` with the state unchanged;
on success store the fetched handle and the name and return `true`. -/
def load_existing_store (c : Client) (st : RAGState) (fs : FileSystem) :
    Bool × RAGState :=
  match fs st.config_path with
  | none => (false, st)
  | some .malformed => (false, st)
  | some (.valid sn) =>
    match sn with
    | none => (false, st)
    | some store_name =>
      if store_name = "" then (false, st)
      else
        match c.file_search_stores_get store_name with
        | .error _ => (false, st)
        | .ok s => (true, { st with store := some s, store_name := some store_name })

/-- `RAGManager._save_config`: write `{"store_name": self.store_name}` at
`self.config_path` (parent directories are created, so the write always
succeeds). -/
def save_config (st : RAGState) (fs : FileSystem) : FileSystem :=
  fun p => if p = st.config_path then some (.valid st.store_name) else fs p

/-- `RAGManager.create_store`: call `file_search_stores.create`; a raised
remote error propagates with state and file system unchanged; on success set
`self.store` and `self.store_name`, then `_save_config`. -/
def create_store (c : Client) (st : RAGState) (fs : FileSystem)
    (display_name : String) : Except RemoteErr Store × RAGState × FileSystem :=
  match c.file_search_stores_create display_name with
  | .error e => (.error e, st, fs)
  | .ok s =>
    let st2 : RAGState := { st with store := some s, store_name := some s.name }
    (.ok s, st2, save_config st2 fs)

/-- The polling loop of `upload_file`:
`while not operation.done and elapsed < timeout: sleep(5); elapsed += 5;
operation = client.operations.get(operation)`.
Returns the number of `operations.get` calls made and the final done-status.
`count` is the number of polls already performed, `done` the status of the
operation currently held. -/
def pollLoop (g : Nat → Bool) (timeout count elapsed : Nat) (done : Bool) :
    Nat × Bool :=
  if done = true then (count, done)
  else if h : elapsed < timeout then
    pollLoop g timeout (count + 1) (elapsed + 5) (g count)
  else (count, done)
termination_by timeout - elapsed
decreasing_by omega

/-- Errors raised by `upload_file`. -/
inductive UploadErr where
  | valueError (msg : String)
  | timeoutErr (seconds : Nat)
  | remote (e : RemoteErr)
deriving Repr, DecidableEq

/-- The message carried by each `upload_file` exception; a `TimeoutError` is
raised as
`TimeoutError(f"File upload did not complete within {timeout} seconds")`. -/
def UploadErr.message : UploadErr → String
  | .valueError m => m
  | .timeoutErr t => "File upload did not complete within " ++ toString t ++ " seconds"
  | .remote e => e.msg

/-- Result of one `upload_file` call, together with the observed remote-call
trace: `starts` counts calls to `upload_to_file_search_store`, `polls` counts
calls to `operations.get`. -/
structure UploadResult where
  result : Except UploadErr Bool
  starts : Nat
  polls : Nat
deriving Repr

/-- `RAGManager.upload_file`: raise `ValueError` when no store is set (before
any remote call); otherwise start the upload, poll until done or `elapsed`
reaches `timeout`, and either return `True` or raise `TimeoutError` carrying
the configured timeout. -/
def upload_file (c : Client) (st : RAGState) (file_path display_name : String)
    (timeout : Nat := 300) : UploadResult :=
  match st.store with
  | none => ⟨.error (.valueError "A file search store must be created first"), 0, 0⟩
  | some s =>
    match c.upload_to_file_search_store file_path s.name display_name with
    | .error e => ⟨.error (.remote e), 1, 0⟩
    | .ok operation =>
      match pollLoop c.operations_get timeout 0 0 operation.done with
      | (count, true) => ⟨.ok true, 1, count⟩
      | (count, false) => ⟨.error (.timeoutErr timeout), 1, count⟩

/-- `types.FileSearch(file_search_store_names=[...])`. -/
structure FileSearch where
  file_search_store_names : List String
deriving Repr, DecidableEq

/-- `types.Tool(file_search=...)`. -/
structure Tool where
  file_search : FileSearch
deriving Repr, DecidableEq

/-- `RAGManager.get_file_search_tool`: `ValueError` when no store is set,
otherwise a tool descriptor binding exactly `[self.store.name]`. -/
def get_file_search_tool (st : RAGState) : Except String Tool :=
  match st.store with
  | none => .error "A file search store must be created first"
  | some s => .ok ⟨⟨[s.name]⟩⟩

/-- `RAGManager.get_document_count`: 0 when `self.store is None or
self.store_name is None`; otherwise the length of the remote file listing,
with any raised listing error swallowed to 0. -/
def get_document_count (c : Client) (st : RAGState) : Nat :=
  match st.store, st.store_name with
  | some _, some store_name =>
    match c.files_list store_name with
    | .ok files => files.length
    | .error _ => 0
  | _, _ => 0

/-- `enzyme_kinetics` from `core/tools.py`: Michaelis–Menten velocity
`(v_max * substrate_conc) / (km + substrate_conc)` guarded by positivity of
all three parameters. -/
def enzyme_kinetics (v_max km substrate_conc : ℚ) : Except String ℚ :=
  if v_max ≤ 0 ∨ km ≤ 0 ∨ substrate_conc ≤ 0 then
    .error "All parameters must be positive values"
  else
    .ok ((v_max * substrate_conc) / (km + substrate_conc))

/-- `isoelectric_point` from `core/tools.py`: require at least two pKa
values, sort ascending, average the two values of a pair; for a triple
average the two lowest when the middle value is < 7 and otherwise the two
highest; reject four or more values. -/
def isoelectric_point (pka_values : List ℚ) : Except String ℚ :=
  if pka_values.length < 2 then
    .error "At least 2 pKa values are required"
  else
    match pka_values.mergeSort with
    | [a, b] => .ok ((a + b) / 2)
    | [a, b, c] =>
      if b < 7 then .ok ((a + b) / 2) else .ok ((b + c) / 2)
    | _ => .error "Expected 2 or 3 pKa values"

/-! ### Helper lemmas -/

/-- When every poll reports not-done, the loop performs `⌈(timeout - elapsed) / 5⌉`
further polls and ends not-done. -/
theorem pollLoop_never_done (g : Nat → Bool) (hg : ∀ n, g n = false) :
    ∀ fuel timeout count elapsed, timeout - elapsed ≤ fuel →
      pollLoop g timeout count elapsed false =
        (count + (timeout - elapsed + 4) / 5, false) := by
  intro fuel
  induction fuel with
  | zero =>
    intro t c e h
    rw [pollLoop]
    have he : ¬ e < t := by omega
    simp only [Bool.false_eq_true, if_false, dif_neg he]
    have h0 : t - e = 0 := by omega
    simp [h0]
  | succ fuel ih =>
    intro t c e h
    rw [pollLoop]
    simp only [Bool.false_eq_true, if_false]
    by_cases he : e < t
    · rw [dif_pos he, hg c, ih t (c + 1) (e + 5) (by omega)]
      have harith : c + 1 + (t - (e + 5) + 4) / 5 = c + (t - e + 4) / 5 := by omega
      rw [harith]
    · rw [dif_neg he]
      have h0 : t - e = 0 := by omega
      simp [h0]

/-! ### Concrete environments used by witnesses and counterexamples -/

/-- A client whose upload operation never reports done. -/
def neverDoneClient : Client where
  file_search_stores_create := fun _ => .error ⟨"unused"⟩
  file_search_stores_get := fun _ => .error ⟨"unused"⟩
  upload_to_file_search_store := fun _ _ _ => .ok ⟨false⟩
  operations_get := fun _ => false
  files_list := fun _ => .error ⟨"unused"⟩

/-- A manager state holding a store. -/
def stWithStore : RAGState :=
  ⟨some ⟨"stores/test-store-123"⟩, some "stores/test-store-123", ".streamlit/rag_store.json"⟩

/-- A fresh manager state (no store created or restored). -/
def stFresh : RAGState := ⟨none, none, ".streamlit/rag_store.json"⟩

/-- An empty file system (no persisted config). -/
def fsEmpty : FileSystem := fun _ => none

/-! ### Claims -/

/-- C1: when the remote operation never reports done, `upload_file` raises a
`TimeoutError` carrying the configured timeout once the elapsed wait (in fixed
5-second increments) reaches the timeout, after `⌈timeout / 5⌉` polls of the
operation status; in particular `timeout = 5` performs exactly one poll before
raising. -/
theorem upload_file_timeout_behavior (c : Client) (st : RAGState) (s : Store)
    (file_path display_name : String) (timeout : Nat) (op : Operation)
    (hst : st.store = some s)
    (hstart : c.upload_to_file_search_store file_path s.name display_name = .ok op)
    (hop : op.done = false)
    (hnever : ∀ n, c.operations_get n = false) :
    upload_file c st file_path display_name timeout =
      ⟨.error (.timeoutErr timeout), 1, (timeout + 4) / 5⟩ ∧
    (UploadErr.timeoutErr timeout).message =
      "File upload did not complete within " ++ toString timeout ++ " seconds" ∧
    (timeout = 5 → (upload_file c st file_path display_name timeout).polls = 1) := by
  have hloop := pollLoop_never_done c.operations_get hnever timeout timeout 0 0 (by omega)
  have hmain : upload_file c st file_path display_name timeout =
      ⟨.error (.timeoutErr timeout), 1, (timeout + 4) / 5⟩ := by
    simp only [upload_file, hst, hstart]
    rw [hop, hloop]
    simp
  refine ⟨hmain, rfl, fun h5 => ?_⟩
  rw [hmain, h5]

/-- Witness for C1: a concrete never-done upload with `timeout = 5` makes
exactly one poll and raises the timeout error carrying 5. -/
theorem upload_file_timeout_behavior_witness :
    upload_file neverDoneClient stWithStore "/path/to/file.pdf" "test" 5 =
      ⟨.error (.timeoutErr 5), 1, 1⟩ :=
  (upload_file_timeout_behavior neverDoneClient stWithStore
    ⟨"stores/test-store-123"⟩ "/path/to/file.pdf" "test" 5 ⟨false⟩
    rfl rfl rfl (fun _ => rfl)).1

/-- C2: with the slot unset, `upload_file` raises the precondition
`ValueError` ("A file search store must be created first") and issues no
remote call at all (`starts = 0`, `polls = 0`). -/
theorem upload_file_requires_store (c : Client) (st : RAGState)
    (file_path display_name : String) (timeout : Nat)
    (h : st.store = none) :
    upload_file c st file_path display_name timeout =
      ⟨.error (.valueError "A file search store must be created first"), 0, 0⟩ := by
  simp [upload_file, h]

/-- Witness for C2: a fresh manager rejects an upload without contacting the
remote service. -/
theorem upload_file_requires_store_witness :
    upload_file neverDoneClient stFresh "/path/to/file.pdf" "test" 300 =
      ⟨.error (.valueError "A file search store must be created first"), 0, 0⟩ :=
  upload_file_requires_store neverDoneClient stFresh "/path/to/file.pdf" "test" 300 rfl

/-- C3: `load_existing_store` is total (never raises) and returns `true`
exactly when the persisted file holds a non-falsy `"store_name"` that the
remote service resolves; a missing file, a malformed record, or a rejected
identifier each yield `false` with the state unchanged. -/
theorem load_existing_store_spec (c : Client) (st : RAGState) (fs : FileSystem) :
    ((load_existing_store c st fs).1 = true ↔
      ∃ nm s, fs st.config_path = some (.valid (some nm)) ∧ nm ≠ "" ∧
        c.file_search_stores_get nm = .ok s) ∧
    (fs st.config_path = none → load_existing_store c st fs = (false, st)) ∧
    (fs st.config_path = some .malformed → load_existing_store c st fs = (false, st)) ∧
    (∀ nm e, fs st.config_path = some (.valid (some nm)) →
      c.file_search_stores_get nm = .error e →
      load_existing_store c st fs = (false, st)) := by
  cases hfs : fs st.config_path with
  | none => simp [load_existing_store, hfs]
  | some fc =>
    cases fc with
    | malformed => simp [load_existing_store, hfs]
    | valid sn =>
      cases sn with
      | none => simp [load_existing_store, hfs]
      | some nm =>
        by_cases hnm : nm = ""
        · subst hnm
          simp [load_existing_store, hfs]
        · cases hget : c.file_search_stores_get nm with
          | error e => simp [load_existing_store, hfs, hnm, hget]
          | ok s =>
            simp [load_existing_store, hfs, hnm, hget]
            rintro nm' e rfl
            simp [hget]

/-- Witness for C3: on a fresh environment with no persisted file the loader
returns "not loaded" with the state untouched. -/
theorem load_existing_store_spec_witness :
    load_existing_store neverDoneClient stFresh fsEmpty = (false, stFresh) :=
  (load_existing_store_spec neverDoneClient stFresh fsEmpty).2.1 rfl

/-- A client whose created store carries the empty string as identifier and
whose get resolves every identifier. -/
def emptyNameClient : Client where
  file_search_stores_create := fun _ => .ok ⟨""⟩
  file_search_stores_get := fun _ => .ok ⟨""⟩
  upload_to_file_search_store := fun _ _ _ => .ok ⟨true⟩
  operations_get := fun _ => true
  files_list := fun _ => .ok []

/-- Counterexample to C4 as stated: when the remote service assigns the empty
string as identifier, `create_store` succeeds and persists it under
`"store_name"`, the service still resolves it, yet `load_existing_store`
returns "not loaded" (the falsy check `if not store_name` rejects `""`), so
the identifier is not restored. -/
theorem create_store_roundtrip_counterexample :
    (create_store emptyNameClient stFresh fsEmpty "biochemistry-notes").1 = .ok ⟨""⟩ ∧
    (create_store emptyNameClient stFresh fsEmpty "biochemistry-notes").2.2
        stFresh.config_path = some (.valid (some "")) ∧
    emptyNameClient.file_search_stores_get "" = .ok ⟨""⟩ ∧
    (load_existing_store emptyNameClient stFresh
      ((create_store emptyNameClient stFresh fsEmpty "biochemistry-notes").2.2)).1 = false := by
  refine ⟨rfl, ?_, rfl, ?_⟩
  · simp [create_store, save_config, emptyNameClient, stFresh]
  · simp [create_store, save_config, load_existing_store, emptyNameClient, stFresh]

/-- C4 (amended: the created identifier must be non-empty, since an empty one
is rejected as falsy on reload): a successful `create_store` persists the
handle's identifier under `"store_name"` at the config path, and a fresh
manager reading the same config file, against a service that resolves the
identifier, restores exactly that identifier into its slot. -/
theorem create_store_roundtrip (c c2 : Client) (st stNew : RAGState)
    (fs : FileSystem) (dn : String) (s s2 : Store)
    (hcreate : (create_store c st fs dn).1 = .ok s)
    (hname : s.name ≠ "")
    (hpath : stNew.config_path = st.config_path)
    (hget : c2.file_search_stores_get s.name = .ok s2) :
    (create_store c st fs dn).2.2 st.config_path = some (.valid (some s.name)) ∧
    load_existing_store c2 stNew ((create_store c st fs dn).2.2) =
      (true, { stNew with store := some s2, store_name := some s.name }) := by
  cases hc : c.file_search_stores_create dn with
  | error e => simp [create_store, hc] at hcreate
  | ok s' =>
    have hs : s' = s := by simpa [create_store, hc] using hcreate
    subst hs
    constructor
    · simp [create_store, hc, save_config]
    · simp [load_existing_store, create_store, hc, save_config, hpath, hname, hget]

/-- A client assigning a non-empty identifier, resolving exactly it. -/
def goodClient : Client where
  file_search_stores_create := fun _ => .ok ⟨"stores/test-store-123"⟩
  file_search_stores_get := fun nm =>
    if nm = "stores/test-store-123" then .ok ⟨"stores/test-store-123"⟩
    else .error ⟨"NOT_FOUND"⟩
  upload_to_file_search_store := fun _ _ _ => .ok ⟨true⟩
  operations_get := fun _ => true
  files_list := fun _ => .ok ["doc1"]

/-- Witness for C4 (amended): a concrete create-then-reload round trip
restores the same identifier. -/
theorem create_store_roundtrip_witness :
    (create_store goodClient stFresh fsEmpty "biochemistry-notes").2.2
        stFresh.config_path = some (.valid (some "stores/test-store-123")) ∧
    load_existing_store goodClient stFresh
      ((create_store goodClient stFresh fsEmpty "biochemistry-notes").2.2) =
      (true, { stFresh with store := some ⟨"stores/test-store-123"⟩,
                            store_name := some "stores/test-store-123" }) :=
  create_store_roundtrip goodClient goodClient stFresh stFresh fsEmpty
    "biochemistry-notes" ⟨"stores/test-store-123"⟩ ⟨"stores/test-store-123"⟩
    rfl (by decide) rfl (by simp [goodClient])

/-- C5: when remote creation fails, the error propagates and neither the
in-memory slot nor the persisted config changes (nothing is written). -/
theorem create_store_atomic_failure (c : Client) (st : RAGState)
    (fs : FileSystem) (dn : String) (e : RemoteErr)
    (h : c.file_search_stores_create dn = .error e) :
    create_store c st fs dn = (.error e, st, fs) := by
  simp [create_store, h]

/-- Witness for C5: a concrete failing creation leaves state and file system
untouched. -/
theorem create_store_atomic_failure_witness :
    create_store neverDoneClient stFresh fsEmpty "biochemistry-notes" =
      (.error ⟨"unused"⟩, stFresh, fsEmpty) :=
  create_store_atomic_failure neverDoneClient stFresh fsEmpty
    "biochemistry-notes" ⟨"unused"⟩ rfl

/-- C6: with a store in the slot, `get_file_search_tool` returns a descriptor
whose store-name list is exactly the one-element list holding the current
handle's identifier; with no store it raises the precondition `ValueError`. -/
theorem get_file_search_tool_spec (st : RAGState) :
    (st.store = none →
      get_file_search_tool st = .error "A file search store must be created first") ∧
    (∀ s, st.store = some s →
      get_file_search_tool st = .ok ⟨⟨[s.name]⟩⟩ ∧
      ∀ t, get_file_search_tool st = .ok t →
        t.file_search.file_search_store_names.length = 1 ∧
        t.file_search.file_search_store_names = [s.name]) := by
  cases hst : st.store with
  | none => simp [get_file_search_tool, hst]
  | some s =>
    refine ⟨by simp, fun s' hs' => ?_⟩
    obtain rfl : s = s' := Option.some.inj hs'
    refine ⟨by simp [get_file_search_tool, hst], fun t ht => ?_⟩
    simp only [get_file_search_tool, hst] at ht
    obtain rfl : (⟨⟨[s.name]⟩⟩ : Tool) = t := by simpa using ht
    simp

/-- Witness for C6: both branches at concrete states. -/
theorem get_file_search_tool_spec_witness :
    get_file_search_tool stFresh = .error "A file search store must be created first" ∧
    get_file_search_tool stWithStore = .ok ⟨⟨["stores/test-store-123"]⟩⟩ :=
  ⟨(get_file_search_tool_spec stFresh).1 rfl,
   ((get_file_search_tool_spec stWithStore).2 ⟨"stores/test-store-123"⟩ rfl).1⟩

/-- C7: `get_document_count` is total (never raises) and non-negative: it is
0 when the slot or the saved name is unset, 0 when the remote listing fails,
and otherwise the length of the listing. -/
theorem get_document_count_spec (c : Client) (st : RAGState) :
    0 ≤ get_document_count c st ∧
    ((st.store = none ∨ st.store_name = none) → get_document_count c st = 0) ∧
    (∀ s nm, st.store = some s → st.store_name = some nm →
      (∀ e, c.files_list nm = .error e → get_document_count c st = 0) ∧
      (∀ files, c.files_list nm = .ok files →
        get_document_count c st = files.length)) := by
  refine ⟨Nat.zero_le _, ?_, ?_⟩
  · rintro (h | h) <;> simp [get_document_count, h]
  · intro s nm hs hnm
    cases hlist : c.files_list nm with
    | error e =>
      refine ⟨fun e' he' => ?_, fun files hf => ?_⟩
      · simp [get_document_count, hs, hnm, hlist]
      · simp at hf
    | ok files =>
      refine ⟨fun e he => ?_, fun files' hf => ?_⟩
      · simp at he
      · obtain rfl : files = files' := by simpa using hf
        simp [get_document_count, hs, hnm, hlist]

/-- Witness for C7: 0 on a fresh state, and the listing length (1) on a
loaded state with a successful listing. -/
theorem get_document_count_spec_witness :
    get_document_count neverDoneClient stFresh = 0 ∧
    get_document_count goodClient stWithStore = 1 :=
  ⟨(get_document_count_spec neverDoneClient stFresh).2.1 (Or.inl rfl),
   ((get_document_count_spec goodClient stWithStore).2.2 ⟨"stores/test-store-123"⟩
      "stores/test-store-123" rfl rfl).2 ["doc1"] rfl⟩

/-- Sorting (`sorted(...)` in Python, modelled by `List.mergeSort`) depends
only on the multiset of elements. -/
theorem mergeSort_perm_congr {l l' : List ℚ} (h : l.Perm l') :
    l.mergeSort = l'.mergeSort :=
  List.eq_of_perm_of_sorted
    ((l.mergeSort_perm _).trans (h.trans (l'.mergeSort_perm _).symm))
    (List.sorted_mergeSort' _)
    (List.sorted_mergeSort' _)

/-- Any two-element list yields the arithmetic mean of its elements. -/
theorem isoelectric_point_pair (a b : ℚ) :
    isoelectric_point [a, b] = .ok ((a + b) / 2) := by
  rcases le_total a b with hab | hba
  · have hs : List.Sorted (· ≤ ·) [a, b] := by simp [List.sorted_cons, hab]
    simp [isoelectric_point, List.mergeSort_eq_self hs]
  · have hs : List.Sorted (· ≤ ·) [b, a] := by simp [List.sorted_cons, hba]
    have hm : [a, b].mergeSort = [b, a] :=
      (mergeSort_perm_congr (List.Perm.swap b a [])).trans (List.mergeSort_eq_self hs)
    simp [isoelectric_point, hm]
    ring

/-- A sorted three-element list selects the lower pair when the middle value
is below 7 and the upper pair otherwise. -/
theorem isoelectric_point_sorted_three (a b c : ℚ) (hab : a ≤ b) (hbc : b ≤ c) :
    isoelectric_point [a, b, c] =
      .ok (if b < 7 then (a + b) / 2 else (b + c) / 2) := by
  have hs : List.Sorted (· ≤ ·) [a, b, c] := by
    simp [List.sorted_cons]
    exact ⟨⟨hab, hab.trans hbc⟩, hbc⟩
  by_cases hb : b < 7 <;>
    simp [isoelectric_point, List.mergeSort_eq_self hs, hb]

/-- C8: for all positive `v_max`, `km`, the Michaelis–Menten velocity at
substrate concentration `km` is exactly `v_max / 2` (Python float arithmetic
modelled exactly over ℚ). -/
theorem enzyme_kinetics_half_vmax (v_max km : ℚ) (hv : 0 < v_max) (hk : 0 < km) :
    enzyme_kinetics v_max km km = .ok (v_max / 2) := by
  have hguard : ¬(v_max ≤ 0 ∨ km ≤ 0 ∨ km ≤ 0) := by push_neg; exact ⟨hv, hk, hk⟩
  rw [enzyme_kinetics, if_neg hguard]
  have hkk : km + km ≠ 0 := by positivity
  congr 1
  field_simp
  ring

/-- Witness for C8: `enzyme_kinetics(100, 10, 10) = 50`. -/
theorem enzyme_kinetics_half_vmax_witness :
    (0:ℚ) < 100 ∧ (0:ℚ) < 10 ∧ enzyme_kinetics 100 10 10 = .ok 50 := by
  refine ⟨by norm_num, by norm_num, ?_⟩
  rw [enzyme_kinetics_half_vmax 100 10 (by norm_num) (by norm_num)]
  norm_num

/-- C9: a two-element list yields the arithmetic mean; a three-element list
(viewed through its ascending ordering `[a, b, c]`) yields the mean of the
two lowest when the second-lowest is below 7 and of the two highest
otherwise; the cited examples hold within ±0.01. -/
theorem isoelectric_point_selection :
    (∀ a b : ℚ, isoelectric_point [a, b] = .ok ((a + b) / 2)) ∧
    (∀ l : List ℚ, l.length = 3 → ∃ a b c : ℚ,
      l.Perm [a, b, c] ∧ a ≤ b ∧ b ≤ c ∧
      isoelectric_point l = .ok (if b < 7 then (a + b) / 2 else (b + c) / 2)) ∧
    isoelectric_point [2.34, 9.6] = .ok 5.97 ∧
    isoelectric_point [1.88, 3.65, 9.6] = .ok 2.765 ∧
    |(2.765:ℚ) - 2.77| ≤ 0.01 ∧
    isoelectric_point [2.18, 8.95, 10.53] = .ok 9.74 := by
  have htriple : ∀ l : List ℚ, l.length = 3 → ∃ a b c : ℚ,
      l.Perm [a, b, c] ∧ a ≤ b ∧ b ≤ c ∧
      isoelectric_point l = .ok (if b < 7 then (a + b) / 2 else (b + c) / 2) := by
    intro l hl
    obtain ⟨a, b, c, hm⟩ :=
      List.length_eq_three.mp ((l.mergeSort_perm _).length_eq.trans hl)
    have hs := List.sorted_mergeSort' l
    rw [hm] at hs
    obtain ⟨h1, h2⟩ := List.sorted_cons.mp hs
    obtain ⟨h3, _⟩ := List.sorted_cons.mp h2
    have hab : a ≤ b := h1 b (by simp)
    have hbc : b ≤ c := h3 c (by simp)
    have hperm : l.Perm [a, b, c] := hm ▸ (l.mergeSort_perm _).symm
    have h2 : ¬ l.length < 2 := by omega
    refine ⟨a, b, c, hperm, hab, hbc, ?_⟩
    by_cases hb : b < 7 <;> simp [isoelectric_point, h2, hm, hb]
  refine ⟨isoelectric_point_pair, htriple, ?_, ?_, by norm_num [abs_le], ?_⟩
  · rw [isoelectric_point_pair]
    norm_num
  · rw [isoelectric_point_sorted_three 1.88 3.65 9.6 (by norm_num) (by norm_num)]
    norm_num
  · rw [isoelectric_point_sorted_three 2.18 8.95 10.53 (by norm_num) (by norm_num)]
    norm_num

/-- Witness for C9: the two quantified parts applied at calls whose inputs
are not pre-sorted. -/
theorem isoelectric_point_selection_witness :
    isoelectric_point [9.6, 2.34] = .ok ((9.6 + 2.34) / 2) ∧
    (∃ a b c : ℚ, ([1.88, 3.65, 9.6] : List ℚ).Perm [a, b, c] ∧ a ≤ b ∧ b ≤ c ∧
      isoelectric_point [1.88, 3.65, 9.6] =
        .ok (if b < 7 then (a + b) / 2 else (b + c) / 2)) :=
  ⟨isoelectric_point_selection.1 9.6 2.34,
   isoelectric_point_selection.2.1 [1.88, 3.65, 9.6] rfl⟩

/-- C10: `isoelectric_point` sorts its input, so its result is invariant
under any permutation of the input list (proved for lists of every length,
hence for 2 and 3), and any list of four or more values is rejected with a
validation error instead of a result. -/
theorem isoelectric_point_perm_invariant :
    (∀ l l' : List ℚ, l.Perm l' → isoelectric_point l = isoelectric_point l') ∧
    (∀ l : List ℚ, 4 ≤ l.length →
      isoelectric_point l = .error "Expected 2 or 3 pKa values") := by
  constructor
  · intro l l' h
    unfold isoelectric_point
    rw [h.length_eq, mergeSort_perm_congr h]
  · intro l hl
    have h2 : ¬ l.length < 2 := by omega
    have hml : l.mergeSort.length = l.length := (l.mergeSort_perm _).length_eq
    unfold isoelectric_point
    rw [if_neg h2]
    rcases hms : l.mergeSort with _ | ⟨a, _ | ⟨b, _ | ⟨c, _ | ⟨d, t⟩⟩⟩⟩
    · rw [hms]
    · rw [hms]
    · rw [hms] at hml; simp at hml; omega
    · rw [hms] at hml; simp at hml; omega
    · rw [hms]

/-- Witness for C10: a transposed pair gives the same result, and a
four-element list is rejected. -/
theorem isoelectric_point_perm_invariant_witness :
    isoelectric_point [9.6, 2.34] = isoelectric_point [2.34, 9.6] ∧
    isoelectric_point [1.88, 3.65, 9.6, 10.5] = .error "Expected 2 or 3 pKa values" :=
  ⟨isoelectric_point_perm_invariant.1 [9.6, 2.34] [2.34, 9.6]
    (List.Perm.swap 2.34 9.6 []),
   isoelectric_point_perm_invariant.2 [1.88, 3.65, 9.6, 10.5] (by decide)⟩

end StudyBuddy
